import Mathlib

/-!
A shallow embedding of `bagit.py` (BagIt bag creation and validation) together
with theorems settling the specification claims about it.

Modelling conventions:
* Filesystem paths are lists of path components (`PathC`); `os.path.join` of a
  directory and one entry name is list append of a singleton.  A relative path
  string such as `"data/a.txt"` is converted to components by splitting on
  `'/'`, mirroring how the Python string produced by `os.path.join` compares.
* The filesystem is an explicit value (`FS`): an association list from path to
  file content plus a list of directories.  Python functions that mutate the
  filesystem take and return an `FS`; functions that can raise return
  `Except PyError`.
* `hashlib` digests are abstracted by an injective, executable encoding of the
  algorithm name and the streamed bytes; everything proved here depends only on
  the digest being a function of (algorithm, content) and on concrete digests
  of distinct concrete contents being distinct, which holds for the encoding.
* Python `is not` on strings compares object identity.  For the one identity
  test in the source (`os.path.basename(filename) is not "data"`), the model
  takes a boolean `dataIdentical` saying whether the listdir-returned string
  whose content is `"data"` is the very object of the literal `"data"`
  (CPython: it is not, since `os.listdir` builds fresh strings).  The quirk is
  behaviourally harmless: when the `"data"` entry is not skipped, the code
  calls `shutil.move` with source and destination the same path, which takes
  the `_samefile` branch and no-ops via `os.rename`, so the final filesystem
  does not depend on `dataIdentical`.
-/

namespace BagitPy

/-- A filesystem path, as a list of components. -/
abbrev PathC := List String

/-- The Python exceptions the embedded code can raise. -/
inductive PyError where
  | valueError
  | ioError
  | shutilError
  | indexError
  | fileExistsError
deriving DecidableEq

/-- The filesystem: files (path with content) and directories. -/
structure FS where
  files : List (PathC × String)
  dirs : List PathC
deriving DecidableEq

/-- Source: `CHECKSUM_NAMES = ['md5', 'sha1', 'sha256', 'sha512']`. -/
def CHECKSUM_NAMES : List String := ["md5", "sha1", "sha256", "sha512"]

/-- Source: `READ_BUFFER = 1048576`. -/
def READ_BUFFER : Nat := 1048576

/-- The algorithm names guaranteed to be accepted by CPython's `hashlib.new`
(`hashlib.algorithms_guaranteed`); a strict superset of `CHECKSUM_NAMES`. -/
def hashlib_algorithms_guaranteed : List String :=
  ["md5", "sha1", "sha224", "sha256", "sha384", "sha512",
   "blake2b", "blake2s",
   "sha3_224", "sha3_256", "sha3_384", "sha3_512",
   "shake_128", "shake_256"]

/-! Structurally recursive string utilities (the kernel can evaluate these,
unlike some of the core `String` loops). -/

/-- Decimal digits of a natural number, on explicit fuel. -/
def natToStrAux : Nat → Nat → List Char
  | 0, _ => []
  | fuel + 1, n =>
      if n < 10 then [Char.ofNat (48 + n)]
      else natToStrAux fuel (n / 10) ++ [Char.ofNat (48 + n % 10)]

/-- Decimal rendering of a natural number. -/
def natToStr (n : Nat) : String :=
  (natToStrAux (n + 1) n).asString

/-- Join strings with a separator (Python `sep.join(...)`). -/
def joinWith (sep : String) : List String → String
  | [] => ""
  | [x] => x
  | x :: y :: xs => x ++ sep ++ joinWith sep (y :: xs)

/-- Python `s.startswith(pre)`. -/
def strStartsWith (s pre : String) : Bool :=
  pre.toList.isPrefixOf s.toList

/-- Python `s.endswith(suf)`. -/
def strEndsWith (s suf : String) : Bool :=
  suf.toList.reverse.isPrefixOf s.toList.reverse

/-- A `hashlib` hasher object: its algorithm and the bytes streamed so far. -/
structure Hasher where
  algorithm : String
  data : List Char
deriving DecidableEq

/-- `hashlib.new(name)`: raises `ValueError` for names outside the supported
set; note this set is larger than `CHECKSUM_NAMES`. -/
def hashlib_new (name : String) : Except PyError Hasher :=
  if name ∈ hashlib_algorithms_guaranteed then .ok ⟨name, []⟩ else .error .valueError

/-- `hasher.update(block)` appends the block to the streamed bytes. -/
def Hasher.update (h : Hasher) (block : List Char) : Hasher :=
  ⟨h.algorithm, h.data ++ block⟩

/-- `hasher.hexdigest()`, abstracted as an injective whitespace-free encoding
of the algorithm and the streamed bytes (see the module docstring). -/
def Hasher.hexdigest (h : Hasher) : String :=
  h.algorithm ++ ":" ++ joinWith "." (h.data.map (fun c => natToStr c.toNat))

/-- The blocks returned by repeated `f.read(n)` over content `l`: chunks of
size `n` until the read comes back empty.  Structural recursion on fuel
(`l.length + 1` always suffices because each nonempty read consumes at least
one character when `n ≠ 0`, and `read(0)` returns the empty block at once). -/
def readBlocksFuel : Nat → Nat → List Char → List (List Char)
  | 0, _, _ => []
  | fuel + 1, n, l =>
    if n = 0 then []
    else if l = [] then []
    else l.take n :: readBlocksFuel fuel n (l.drop n)

/-- All blocks produced by streaming content `l` in reads of size `n`. -/
def readBlocks (n : Nat) (l : List Char) : List (List Char) :=
  readBlocksFuel (l.length + 1) n l

/-- Source: `_hash_file(hasher, full_path)` — opens the file (I/O error when it
does not exist), streams it through the hasher in `READ_BUFFER`-sized blocks,
and returns the hex digest. -/
def _hash_file (fs : FS) (hasher : Hasher) (full_path : PathC) : Except PyError String :=
  match fs.files.lookup full_path with
  | none => .error .ioError
  | some content =>
      .ok (Hasher.hexdigest ((readBlocks READ_BUFFER content.toList).foldl Hasher.update hasher))

/-! ### Python string helpers: `str.split(maxsplit=...)`, `str.rstrip`, line iteration -/

/-- Python whitespace for `str.split()`/`str.rstrip()`. -/
def pyIsWs (c : Char) : Bool :=
  c = ' ' || c = '\t' || c = '\n' || c = '\r' || c = '\x0b' || c = '\x0c'

/-- Drop leading Python whitespace. -/
def dropWs : List Char → List Char
  | [] => []
  | c :: cs => if pyIsWs c then dropWs cs else c :: cs

/-- Split off one whitespace-delimited token: the token and the rest
(starting at the whitespace). -/
def takeTok : List Char → List Char × List Char
  | [] => ([], [])
  | c :: cs =>
      if pyIsWs c then ([], c :: cs)
      else
        let p := takeTok cs
        (c :: p.1, p.2)

/-- Python `s.split(maxsplit=m)` (split on runs of whitespace): after `m`
splits the remainder — leading whitespace skipped, trailing whitespace kept —
is the final element when nonempty. -/
def pySplitWs : Nat → List Char → List (List Char)
  | m, cs =>
    match dropWs cs with
    | [] => []
    | c :: cs' =>
        match m with
        | 0 => [c :: cs']
        | m' + 1 =>
            let p := takeTok (c :: cs')
            p.1 :: pySplitWs m' p.2

/-- Python `s.rstrip()`: strip trailing whitespace. -/
def pyRstrip (s : String) : String :=
  ((dropWs s.toList.reverse).reverse).asString

/-- Helper for `pyLines`: accumulate the current (reversed) line. -/
def pyLinesAux : List Char → List Char → List (List Char)
  | [], acc => if acc = [] then [] else [acc.reverse]
  | c :: cs, acc =>
      if c = '\n' then (acc.reverse ++ ['\n']) :: pyLinesAux cs []
      else pyLinesAux cs (c :: acc)

/-- Python text-file line iteration (`for line in f`): lines keep their
terminating newline; a final fragment without a newline is its own line. -/
def pyLines (s : String) : List String :=
  (pyLinesAux s.toList []).map List.asString

/-- Split on any of the characters of `"-|."` (helper for `algTokenOf`),
adjacent delimiters yielding empty fields as with `re.split`. -/
def splitDashDotAux : List Char → List Char → List String
  | [], acc => [acc.reverse.asString]
  | c :: cs, acc =>
      if c = '-' || c = '.' then acc.reverse.asString :: splitDashDotAux cs []
      else splitDashDotAux cs (c :: acc)

/-- `re.split("-|\\.", name)[1]`: the token between the first `-` and the
following `.` of a manifest file name (used by `is_valid`). -/
def algTokenOf (name : String) : String :=
  (splitDashDotAux name.toList []).getD 1 ""

/-- Split a string on `'/'` (helper for `relToComponents`). -/
def splitSlashAux : List Char → List Char → List String
  | [], acc => [acc.reverse.asString]
  | c :: cs, acc =>
      if c = '/' then acc.reverse.asString :: splitSlashAux cs []
      else splitSlashAux cs (c :: acc)

/-- Convert a relative path string (as read from a manifest or fetch line)
to components by splitting on `'/'`; a component that still carries stray
characters (for example a trailing newline) stays distinct from the clean
name, exactly as the corresponding Python path strings compare. -/
def relToComponents (rel : String) : List String :=
  splitSlashAux rel.toList []

/-! ### Filesystem primitives -/

/-- Whether `q` is `d` plus exactly one more component; if so, that name. -/
def immediateChild : List String → List String → Option String
  | [], [n] => some n
  | d₀ :: d, q₀ :: q => if q₀ = d₀ then immediateChild d q else none
  | _, _ => none

/-- `os.path.isfile`. -/
def FS.isfile (fs : FS) (p : PathC) : Bool :=
  (fs.files.lookup p).isSome

/-- `os.path.isdir`. -/
def FS.isdir (fs : FS) (p : PathC) : Bool :=
  fs.dirs.contains p

/-- `os.listdir(d)`: names of the immediate children of `d` (files and
directories; order is as stored, which is as unspecified as the real call). -/
def FS.listdir (fs : FS) (d : PathC) : List String :=
  (fs.files.filterMap (fun e => immediateChild d e.1) ++
    fs.dirs.filterMap (fun q => immediateChild d q)).dedup

/-- The directories visited by `os.walk(root)`: `root` itself when it exists,
plus every stored directory strictly below it. -/
def FS.walkDirs (fs : FS) (root : PathC) : List PathC :=
  if fs.isdir root then
    root :: fs.dirs.filter (fun d => root.isPrefixOf d && !(d == root))
  else []

/-- The file names listed in directory `d` during a walk. -/
def FS.listFilesIn (fs : FS) (d : PathC) : List String :=
  (fs.files.filterMap (fun e => immediateChild d e.1)).dedup

/-- All file paths visited by `os.walk(root)` (each `os.path.join(dirName, file)`). -/
def FS.walkFiles (fs : FS) (root : PathC) : List PathC :=
  (fs.walkDirs root).flatMap (fun d => (fs.listFilesIn d).map (fun n => d ++ [n]))

/-- Remove a file entry by key. -/
def eraseKey (l : List (PathC × String)) (p : PathC) : List (PathC × String) :=
  l.filter (fun e => !(e.1 == p))

/-- `open(p, 'w').write(c)`: create or overwrite the file at `p`. -/
def FS.setFile (fs : FS) (p : PathC) (c : String) : FS :=
  ⟨(p, c) :: eraseKey fs.files p, fs.dirs⟩

/-- Rename `q` when it equals `src` or lies below it. -/
def renameUnder (src dst q : List String) : List String :=
  if src.isPrefixOf q then dst ++ q.drop src.length else q

/-- Move the tree rooted at `src` to `dst` (the rename that `shutil.move`
performs once its destination is fixed). -/
def FS.movePath (fs : FS) (src dst : PathC) : FS :=
  ⟨fs.files.map (fun e => (renameUnder src dst e.1, e.2)),
   fs.dirs.map (renameUnder src dst)⟩

/-- `shutil.move(src, dst)`, modelled for local paths without symlinks or
case folding, so `_samefile` is path equality.  When `dst` is an existing
directory: a same-path move takes the `_samefile` branch and performs
`os.rename(src, dst)` — by POSIX a successful no-op — and returns; otherwise
the real destination is `dst/basename(src)`, which must not already exist
(`shutil.Error "Destination path ... already exists"`), and moving a
directory into itself raises `shutil.Error` (the `_destinsrc` check after the
failed rename).  A missing source is an I/O error. -/
def shutil_move (fs : FS) (src dst : PathC) : Except PyError FS :=
  if fs.isfile src || fs.isdir src then
    if fs.isdir dst then
      if src = dst then .ok fs
      else if fs.isfile (dst ++ [src.getLastD ""]) || fs.isdir (dst ++ [src.getLastD ""]) then
        .error .shutilError
      else if fs.isdir src && src.isPrefixOf (dst ++ [src.getLastD ""]) then
        .error .shutilError
      else .ok (fs.movePath src (dst ++ [src.getLastD ""]))
    else
      if fs.isdir src && src.isPrefixOf dst then .error .shutilError
      else .ok (fs.movePath src dst)
  else .error .ioError

/-- `os.makedirs(p)`: raises `FileExistsError` when `p` already exists
(creation of missing parents is elided; every use here has the parent). -/
def os_makedirs (fs : FS) (p : PathC) : Except PyError FS :=
  if fs.isdir p || fs.isfile p then .error .fileExistsError
  else .ok ⟨fs.files, p :: fs.dirs⟩

/-- The fresh directory name `tempfile.mkdtemp` picks, modelled
deterministically; the concrete instances check freshness explicitly. -/
def mkdtempPath (fs : FS) : PathC :=
  ["tmp" ++ natToStr (fs.dirs.length + fs.files.length)]

/-- `tempfile.mkdtemp()`: create a new temporary directory, return its path. -/
def tempfile_mkdtemp (fs : FS) : PathC × FS :=
  (mkdtempPath fs, ⟨fs.files, mkdtempPath fs :: fs.dirs⟩)

/-! ### Data model: Version, FetchItem, Manifest (with its class-level map), Bag -/

/-- Source: `class Version`, carrying a major and minor number; serialized as
`"{major}.{minor}"`. -/
structure Version where
  major : Nat
  minor : Nat
deriving DecidableEq

/-- `str(version)`. -/
def Version.str (v : Version) : String :=
  natToStr v.major ++ "." ++ natToStr v.minor

/-- Source: `class FetchItem` with url, length and path fields. -/
structure FetchItem where
  url : String
  length : String
  path : String
deriving DecidableEq

/-- Source: `class Manifest`.  `__init__` assigns only `self.algorithm`; the
`fileToChecksumMap` named in the class body stays a single class-level dict,
so a `Manifest` value carries no map of its own. -/
structure Manifest where
  algorithm : String
deriving DecidableEq

/-- The class-level `Manifest.fileToChecksumMap` dict: one mutable mapping for
the whole process, shared by every instance (insertion-ordered, as a Python
dict is). -/
structure ManifestClassState where
  fileToChecksumMap : List (PathC × String)
deriving DecidableEq

/-- Source: `Manifest.__init__` — rejects an algorithm outside
`CHECKSUM_NAMES` with `ValueError`, before touching anything else; otherwise
assigns only the instance's `algorithm`. -/
def Manifest.init (algorithm : String) : Except PyError Manifest :=
  if algorithm ∈ CHECKSUM_NAMES then .ok ⟨algorithm⟩ else .error .valueError

/-- Reading `m.fileToChecksumMap`: the instance has no such attribute, so
Python attribute lookup falls through to the shared class dict. -/
def Manifest.fileToChecksumMap (_ : Manifest) (s : ManifestClassState) : List (PathC × String) :=
  s.fileToChecksumMap

/-- Python dict item assignment: replace the value of an existing key in
place, otherwise append the new key at the end. -/
def dictSet (m : List (PathC × String)) (k : PathC) (v : String) : List (PathC × String) :=
  if (m.lookup k).isSome then m.map (fun e => if e.1 = k then (k, v) else e)
  else m ++ [(k, v)]

/-- `m.fileToChecksumMap[k] = v`: mutates the shared class dict. -/
def Manifest.setChecksum (_ : Manifest) (s : ManifestClassState) (k : PathC) (v : String) :
    ManifestClassState :=
  ⟨dictSet s.fileToChecksumMap k v⟩

/-- Source: `class Bag`. -/
structure Bag where
  version : Version
  fileEncoding : String
  itemsToFetch : List FetchItem
  payLoadManifests : List Manifest
  tagManifests : List Manifest
  metadata : List (String × String)
  rootDir : PathC
deriving DecidableEq

instance : Inhabited Bag :=
  ⟨⟨⟨0, 0⟩, "", [], [], [], [], []⟩⟩

/-- Source: `Bag.__init__` — fixes version 0.97 and utf-8, empties the
collections, and sets `rootDir` to a freshly created temporary directory
(`tempfile.mkdtemp()`), which therefore mutates the filesystem. -/
def Bag.init (fs : FS) : Bag × FS :=
  let p := tempfile_mkdtemp fs
  (⟨⟨0, 97⟩, "utf-8", [], [], [], [], p.1⟩, p.2)

/-! ### Bagger -/

/-- Source: `_create_data_directory` — `data_dir = os.path.join(directory,
"data")`; unless dry-running, `os.makedirs(data_dir)`; returns `data_dir`. -/
def _create_data_directory (fs : FS) (directory : PathC) (dryrun : Bool) :
    Except PyError (PathC × FS) :=
  let data_dir := directory ++ ["data"]
  if dryrun then .ok (data_dir, fs)
  else
    match os_makedirs fs data_dir with
    | .error e => .error e
    | .ok fs' => .ok (data_dir, fs')

/-- The loop body of `_move_files_to_data_dir` over the (snapshot) listing.
The guard in the source is `os.path.basename(filename) is not "data"` — an
object-identity test: it skips the entry only when the name both reads
`"data"` and is the same object as the literal (`dataIdentical`). -/
def moveEntries (fs : FS) (directory data_dir : PathC) (dryrun dataIdentical : Bool) :
    List String → Except PyError FS
  | [] => .ok fs
  | filename :: rest =>
      if filename = "data" ∧ dataIdentical then
        moveEntries fs directory data_dir dryrun dataIdentical rest
      else if dryrun then
        moveEntries fs directory data_dir dryrun dataIdentical rest
      else
        match shutil_move fs (directory ++ [filename]) data_dir with
        | .error e => .error e
        | .ok fs' => moveEntries fs' directory data_dir dryrun dataIdentical rest

/-- Source: `_move_files_to_data_dir` — for each name in
`os.listdir(directory)`, unless the identity guard skips it (or dry-running),
`shutil.move(os.path.join(directory, filename), data_dir)`. -/
def _move_files_to_data_dir (fs : FS) (directory data_dir : PathC) (dryrun dataIdentical : Bool) :
    Except PyError FS :=
  moveEntries fs directory data_dir dryrun dataIdentical (fs.listdir directory)

/-- The exact text `_create_bagit_file` writes: two declaration lines joined
by a single newline, with no newline after the second. -/
def bagitText (v : Version) : String :=
  "BagIt-Version: " ++ Version.str v ++ "\nTag-File-Character-Encoding: UTF-8"

/-- Source: `_create_bagit_file` — unless dry-running, write `bagitText` to
`<directory>/bagit.txt`. -/
def _create_bagit_file (fs : FS) (directory : PathC) (v : Version) (dryrun : Bool) : FS :=
  if dryrun then fs else fs.setFile (directory ++ ["bagit.txt"]) (bagitText v)

/-- The inner loop of `_create_payload_manifest`: for each walked payload file,
`hashlib.new` then `_hash_file`, storing the digest into (what the source
believes is) the manifest's map — actually the shared class dict.  The bare
`try ... except: raise` around the body re-raises unchanged and is therefore
not represented. -/
def processFiles (fs : FS) (alg : String) (s : ManifestClassState) :
    List PathC → Except PyError ManifestClassState
  | [] => .ok s
  | p :: rest =>
      match hashlib_new alg with
      | .error e => .error e
      | .ok hasher =>
          match _hash_file fs hasher p with
          | .error e => .error e
          | .ok digest => processFiles fs alg ⟨dictSet s.fileToChecksumMap p digest⟩ rest

/-- Source: `_create_payload_manifest` — construct `Manifest(algorithm)`
(which validates the name), then walk `data_dir` digesting every file into
the map. -/
def _create_payload_manifest (fs : FS) (s : ManifestClassState) (data_dir : PathC)
    (algorithm : String) : Except PyError (Manifest × ManifestClassState) :=
  match Manifest.init algorithm with
  | .error e => .error e
  | .ok pm =>
      match processFiles fs pm.algorithm s (fs.walkFiles data_dir) with
      | .error e => .error e
      | .ok s' => .ok (pm, s')

/-- `os.path.relpath(p, base)` for the case `p` lies under `base` (the only
case the bagger exercises when the class dict starts empty); otherwise the
full path rejoined, standing in for the `..`-climbing of the real call. -/
def os_path_relpath (p base : PathC) : String :=
  if base.isPrefixOf p then joinWith "/" (p.drop base.length)
  else joinWith "/" p

/-- The text `_write_payload_manifest` writes: one `"<digest> <relpath>\n"`
line per entry of the manifest's (class-level) map, in dict order. -/
def manifestText (directory : PathC) (m : List (PathC × String)) : String :=
  String.join (m.map (fun e => e.2 ++ " " ++ os_path_relpath e.1 directory ++ "\n"))

/-- Source: `_write_payload_manifest` — unless dry-running, write the manifest
lines to `<directory>/manifest-<algorithm>.txt`.  The bare
`try ... except: raise` re-raises unchanged and is not represented. -/
def _write_payload_manifest (fs : FS) (directory : PathC) (pm : Manifest)
    (s : ManifestClassState) (dryrun : Bool) : FS :=
  if dryrun then fs
  else fs.setFile (directory ++ ["manifest-" ++ pm.algorithm ++ ".txt"])
    (manifestText directory (Manifest.fileToChecksumMap pm s))

/-- Source: `bag_in_place(directory, *, dryrun, algorithm)` — construct a
`Bag` (its constructor makes a temp dir), point it at `directory`, create
`data/`, move the top-level entries into it, write `bagit.txt`, build the
payload manifest, append it to the bag, and serialize it. -/
def bag_in_place (fs : FS) (s : ManifestClassState) (directory : PathC)
    (dryrun : Bool) (algorithm : String) (dataIdentical : Bool) :
    Except PyError (Bag × FS × ManifestClassState) :=
  let p := Bag.init fs
  let bag : Bag := { p.1 with rootDir := directory }
  match _create_data_directory p.2 directory dryrun with
  | .error e => .error e
  | .ok q =>
      match _move_files_to_data_dir q.2 directory q.1 dryrun dataIdentical with
      | .error e => .error e
      | .ok fs2 =>
          let fs3 := _create_bagit_file fs2 directory bag.version dryrun
          match _create_payload_manifest fs3 s q.1 algorithm with
          | .error e => .error e
          | .ok r =>
              let bag2 : Bag := { bag with payLoadManifests := bag.payLoadManifests ++ [r.1] }
              let fs4 := _write_payload_manifest fs3 directory r.1 r.2 dryrun
              .ok (bag2, fs4, r.2)

/-! ### Validator -/

/-- `os.path.join(bag_directory, rel).rstrip()` as used by `is_valid`:
stripping the joined path string's trailing whitespace is stripping the
relative part's, since the bag path itself carries none. -/
def pyJoinRstrip (bag : PathC) (rel : String) : PathC :=
  bag ++ relToComponents (pyRstrip rel)

/-- One line of the digest-recomputation loop of `is_valid`:
`split_line = line.split(maxsplit=1)` (an `IndexError` when the path field is
missing), join-and-rstrip the referenced path, `hashlib.new(algorithm)`,
`_hash_file`, and compare the recorded to the recomputed digest. -/
def checkManifestLine (fs : FS) (bag_directory : PathC) (algorithm : String) (line : String) :
    Except PyError Bool :=
  match pySplitWs 1 line.toList with
  | [d, pathField] =>
      let full_path := pyJoinRstrip bag_directory pathField.asString
      match hashlib_new algorithm with
      | .error e => .error e
      | .ok hasher =>
          match _hash_file fs hasher full_path with
          | .error e => .error e
          | .ok calculated => .ok (d.asString == calculated)
  | _ => .error .indexError

/-- All lines of one manifest file, short-circuiting on the first mismatch
(the source prints the diagnostic and returns `False`). -/
def checkLines (fs : FS) (bag_directory : PathC) (algorithm : String) :
    List String → Except PyError Bool
  | [] => .ok true
  | line :: rest =>
      match checkManifestLine fs bag_directory algorithm line with
      | .error e => .error e
      | .ok true => checkLines fs bag_directory algorithm rest
      | .ok false => .ok false

/-- One `manifest-*` / `tagmanifest-*` entry of the `is_valid` loop: the
algorithm is `re.split("-|\\.", name)[1]`; the file is opened and its lines
checked. -/
def is_valid_file (fs : FS) (bag_directory : PathC) (name : String) : Except PyError Bool :=
  match fs.files.lookup (bag_directory ++ [name]) with
  | none => .error .ioError
  | some content => checkLines fs bag_directory (algTokenOf name) (pyLines content)

/-- The outer `is_valid` loop over `os.listdir(bag_directory)`, filtered to
names starting with `manifest-` or `tagmanifest-`. -/
def is_valid_loop (fs : FS) (bag_directory : PathC) : List String → Except PyError Bool
  | [] => .ok true
  | name :: rest =>
      if strStartsWith name "manifest-" || strStartsWith name "tagmanifest-" then
        match is_valid_file fs bag_directory name with
        | .error e => .error e
        | .ok true => is_valid_loop fs bag_directory rest
        | .ok false => .ok false
      else is_valid_loop fs bag_directory rest

/-- Source: `_check_bagit_file_exists`. -/
def _check_bagit_file_exists (fs : FS) (bag_directory : PathC) : Bool :=
  fs.isfile (bag_directory ++ ["bagit.txt"])

/-- Source: `_check_payload_directory_exists`. -/
def _check_payload_directory_exists (fs : FS) (bag_directory : PathC) : Bool :=
  fs.isdir (bag_directory ++ ["data"])

/-- Source: `_check_at_least_one_payload_manifest_exists`. -/
def _check_at_least_one_payload_manifest_exists (fs : FS) (bag_directory : PathC) : Bool :=
  (fs.listdir bag_directory).any (fun n => strStartsWith n "manifest-")

/-- Python `set.add` on an insertion-ordered list representation. -/
def insertSet (l : List PathC) (x : PathC) : List PathC :=
  if l.contains x then l else l ++ [x]

/-- The per-line body of `_all_files_in_manifests`:
`all_files.add(os.path.join(bag_directory, line.split(maxsplit=1)[1].rstrip()))`
(an `IndexError` when the path field is missing). -/
def addLines (bag_directory : PathC) : List String → List PathC → Except PyError (List PathC)
  | [], acc => .ok acc
  | line :: rest, acc =>
      match pySplitWs 1 line.toList with
      | [_, f] =>
          addLines bag_directory rest
            (insertSet acc (bag_directory ++ relToComponents (pyRstrip f.asString)))
      | _ => .error .indexError

/-- The outer loop of `_all_files_in_manifests` over the directory listing. -/
def allFilesGo (fs : FS) (bag_directory : PathC) :
    List String → List PathC → Except PyError (List PathC)
  | [], acc => .ok acc
  | name :: rest, acc =>
      if strStartsWith name "manifest-" || strStartsWith name "tagmanifest-" then
        match fs.files.lookup (bag_directory ++ [name]) with
        | none => .error .ioError
        | some content =>
            match addLines bag_directory (pyLines content) acc with
            | .error e => .error e
            | .ok acc' => allFilesGo fs bag_directory rest acc'
      else allFilesGo fs bag_directory rest acc

/-- Source: `_all_files_in_manifests` — the set of paths referenced by any
`manifest-*` or `tagmanifest-*` file at the bag root. -/
def _all_files_in_manifests (fs : FS) (bag_directory : PathC) : Except PyError (List PathC) :=
  allFilesGo fs bag_directory (fs.listdir bag_directory) []

/-- Source: `_check_all_files_in_manifests_exist`. -/
def _check_all_files_in_manifests_exist (fs : FS) (all_files : List PathC) : Bool :=
  all_files.all (fun p => fs.isfile p)

/-- The per-line body of `_check_fetch_items_exist`:
`relative_path = line.split(maxsplit=2)[2]` — note: taken verbatim, with no
rstrip, so a newline-terminated line keeps its `'\n'` in the path — then
`os.path.isfile(os.path.join(bag_directory, relative_path))`. -/
def fetchLoop (fs : FS) (bag_directory : PathC) : List String → Except PyError Bool
  | [] => .ok true
  | line :: rest =>
      match (pySplitWs 2 line.toList)[2]? with
      | none => .error .indexError
      | some rel =>
          if fs.isfile (bag_directory ++ relToComponents rel.asString) then
            fetchLoop fs bag_directory rest
          else .ok false

/-- Source: `_check_fetch_items_exist` — vacuously true when there is no
`fetch.txt`; otherwise every line's third whitespace-separated field,
resolved against the bag root, must be a file. -/
def _check_fetch_items_exist (fs : FS) (bag_directory : PathC) : Except PyError Bool :=
  match fs.files.lookup (bag_directory ++ ["fetch.txt"]) with
  | none => .ok true
  | some content => fetchLoop fs bag_directory (pyLines content)

/-- Source: `_check_all_files_in_payload_dir_exist_in_at_least_one_manifest` —
NOTE the faithful translation of the source's
`filename = os.path.join(dir_name, )`: the dangling comma drops the walked
file's name, so `filename` is the walked directory itself. -/
def _check_all_files_in_payload_dir_exist_in_at_least_one_manifest
    (fs : FS) (bag_directory : PathC) (all_files : List PathC) : Bool :=
  let data_dir := bag_directory ++ ["data"]
  (fs.walkDirs data_dir).all (fun dir_name =>
    (fs.listFilesIn dir_name).all (fun _name =>
      let filename := dir_name
      !(fs.isfile filename && !(all_files.contains filename))))

/-- Source: `is_complete` — `_all_files_in_manifests` is computed first (and
can raise), then the six checks are conjoined; `_check_fetch_items_exist` can
also raise, the remaining four are pure. -/
def is_complete (fs : FS) (bag_directory : PathC) : Except PyError Bool :=
  match _all_files_in_manifests fs bag_directory with
  | .error e => .error e
  | .ok all_files =>
      match _check_fetch_items_exist fs bag_directory with
      | .error e => .error e
      | .ok b =>
          .ok (b && _check_bagit_file_exists fs bag_directory &&
            _check_payload_directory_exists fs bag_directory &&
            _check_at_least_one_payload_manifest_exists fs bag_directory &&
            _check_all_files_in_manifests_exist fs all_files &&
            _check_all_files_in_payload_dir_exist_in_at_least_one_manifest
              fs bag_directory all_files)

/-- Source: `is_valid` — recompute and compare every digest of every
`manifest-*`/`tagmanifest-*` file (any mismatch returns `False`; a missing
file propagates the I/O error from `_hash_file`), then defer to
`is_complete`. -/
def is_valid (fs : FS) (bag_directory : PathC) : Except PyError Bool :=
  match is_valid_loop fs bag_directory (fs.listdir bag_directory) with
  | .error e => .error e
  | .ok true => is_complete fs bag_directory
  | .ok false => .ok false

/-! ### Concrete filesystem fixtures used by the claim theorems

In the digest model the content `"hi"` hashes to `"md5:104.105"` under
`md5` (char codes 104, 105), and analogously for other algorithms. -/

/-- The exact `bagit.txt` text for version 0.97. -/
def bagitFixedText : String :=
  "BagIt-Version: 0.97\nTag-File-Character-Encoding: UTF-8"

/-- A valid bag at root `["b"]`: payload `data/a.txt` with content `"hi"` and
a matching md5 manifest. -/
def fsValidBag : FS :=
  ⟨[(["b", "bagit.txt"], bagitFixedText),
    (["b", "manifest-md5.txt"], "md5:104.105 data/a.txt\n"),
    (["b", "data", "a.txt"], "hi")],
   [["b"], ["b", "data"]]⟩

/-- The same bag after one payload byte is flipped (`"hi"` became `"hj"`);
the manifest still records the digest of `"hi"`. -/
def fsFlippedBag : FS :=
  ⟨[(["b", "bagit.txt"], bagitFixedText),
    (["b", "manifest-md5.txt"], "md5:104.105 data/a.txt\n"),
    (["b", "data", "a.txt"], "hj")],
   [["b"], ["b", "data"]]⟩

/-- A complete bag plus one extra payload file `data/extra.txt` that no
manifest references. -/
def fsExtraFileBag : FS :=
  ⟨[(["b", "bagit.txt"], bagitFixedText),
    (["b", "manifest-md5.txt"], "md5:104.105 data/a.txt\n"),
    (["b", "data", "a.txt"], "hi"),
    (["b", "data", "extra.txt"], "zz")],
   [["b"], ["b", "data"]]⟩

/-- A bag whose manifest references `data/missing.txt`, which is not on
disk. -/
def fsMissingRefBag : FS :=
  ⟨[(["b", "bagit.txt"], bagitFixedText),
    (["b", "manifest-md5.txt"], "md5:0 data/missing.txt\n")],
   [["b"], ["b", "data"]]⟩

/-- A bag whose manifest records a wrong digest for an existing payload
file. -/
def fsWrongDigestBag : FS :=
  ⟨[(["c", "bagit.txt"], bagitFixedText),
    (["c", "manifest-md5.txt"], "md5:999 data/a.txt\n"),
    (["c", "data", "a.txt"], "hi")],
   [["c"], ["c", "data"]]⟩

/-- A bag whose only manifest uses `sha224` — a name outside
`CHECKSUM_NAMES` that `hashlib.new` nevertheless accepts — with the correct
recorded digest. -/
def fsSha224Bag : FS :=
  ⟨[(["b", "bagit.txt"], bagitFixedText),
    (["b", "manifest-sha224.txt"], "sha224:104.105 data/a.txt\n"),
    (["b", "data", "a.txt"], "hi")],
   [["b"], ["b", "data"]]⟩

/-- A bag with a newline-terminated `fetch.txt` line whose referenced file
`a.txt` does exist at the bag root. -/
def fsFetchBag : FS :=
  ⟨[(["b", "bagit.txt"], bagitFixedText),
    (["b", "manifest-md5.txt"], "md5:104.105 data/a.txt\n"),
    (["b", "fetch.txt"], "http://x 1 a.txt\n"),
    (["b", "a.txt"], "z"),
    (["b", "data", "a.txt"], "hi")],
   [["b"], ["b", "data"]]⟩

/-- A plain directory `["d"]` holding one file `a.txt`, about to be bagged in
place. -/
def fsPlainDir : FS :=
  ⟨[(["d", "a.txt"], "hi")], [["d"]]⟩

/-- A plain directory `["e"]` holding one file, used by the dry-run claim. -/
def fsDryDir : FS :=
  ⟨[(["e", "a.txt"], "hi")], [["e"]]⟩

/-- The same plain-directory fixture under a second name, used by a different
claim's run. -/
def fsPlainDir2 : FS :=
  ⟨[(["d", "a.txt"], "hi")], [["d"]]⟩

/-- `fsPlainDir` after `data/` was created, as `_move_files_to_data_dir`
sees it. -/
def fsPlainWithData : FS :=
  ⟨[(["d", "a.txt"], "hi")], [["d"], ["d", "data"]]⟩

/-- What `_move_files_to_data_dir` produces on `fsPlainWithData` when the
identity guard does skip `"data"`. -/
def fsPlainMoved : FS :=
  ⟨[(["d", "data", "a.txt"], "hi")], [["d"], ["d", "data"]]⟩

/-! ### General helper lemmas -/

/-- An association list looks up any key it contains. -/
lemma lookup_isSome_of_mem {l : List (PathC × String)} {p : PathC} {c : String}
    (h : (p, c) ∈ l) : (l.lookup p).isSome := by
  induction l with
  | nil => simp at h
  | cons e t ih =>
      obtain ⟨k, v⟩ := e
      rcases List.mem_cons.mp h with h1 | h1
      · obtain ⟨rfl, rfl⟩ := Prod.mk.injEq .. ▸ h1
        simp [List.lookup]
      · by_cases hk : p = k
        · simp [List.lookup, hk]
        · have hb : (p == k) = false := by simp [hk]
          simpa [List.lookup, hb] using ih h1

/-- `immediateChild d q = some n` means `q` is exactly `d ++ [n]`. -/
lemma immediateChild_eq : ∀ {d q : List String} {n : String},
    immediateChild d q = some n → q = d ++ [n]
  | [], [], _, h => by simp [immediateChild] at h
  | [], [_], _, h => by
      simp only [immediateChild, Option.some.injEq] at h
      simp [h]
  | [], _ :: _ :: _, _, h => by simp [immediateChild] at h
  | _ :: _, [], _, h => by simp [immediateChild] at h
  | d₀ :: d', q₀ :: q', n, h => by
      simp only [immediateChild] at h
      by_cases hq : q₀ = d₀
      · rw [if_pos hq] at h
        have := immediateChild_eq h
        simp [hq, this]
      · rw [if_neg hq] at h
        exact absurd h (by simp)

/-- Every path produced by the payload walk is a stored file. -/
lemma mem_walkFiles_isSome {fs : FS} {root p : PathC} (h : p ∈ fs.walkFiles root) :
    (fs.files.lookup p).isSome := by
  unfold FS.walkFiles at h
  rcases List.mem_flatMap.mp h with ⟨d, _, hp⟩
  rcases List.mem_map.mp hp with ⟨n, hn, rfl⟩
  unfold FS.listFilesIn at hn
  rcases List.mem_filterMap.mp (List.mem_dedup.mp hn) with ⟨e, he, hce⟩
  have hq := immediateChild_eq hce
  exact lookup_isSome_of_mem (c := e.2) (by rw [← hq]; exact he)

/-- Every name in `CHECKSUM_NAMES` is accepted by `hashlib.new`. -/
lemma hashlib_new_checksum {alg : String} (h : alg ∈ CHECKSUM_NAMES) :
    hashlib_new alg = .ok ⟨alg, []⟩ := by
  have hg : alg ∈ hashlib_algorithms_guaranteed := by
    fin_cases h <;> simp [hashlib_algorithms_guaranteed]
  simp [hashlib_new, hg]

/-- `Manifest(...)` succeeds exactly on the four accepted names. -/
lemma manifest_init_checksum {alg : String} (h : alg ∈ CHECKSUM_NAMES) :
    Manifest.init alg = .ok ⟨alg⟩ := by
  simp [Manifest.init, h]

/-- Digesting a list of stored files with an accepted algorithm never
raises. -/
lemma processFiles_ok {fs : FS} {alg : String} (halg : alg ∈ CHECKSUM_NAMES) :
    ∀ (ps : List PathC) (s : ManifestClassState),
      (∀ p ∈ ps, (fs.files.lookup p).isSome) →
      ∃ s', processFiles fs alg s ps = .ok s' := by
  intro ps
  induction ps with
  | nil => exact fun s _ => ⟨s, rfl⟩
  | cons p rest ih =>
      intro s hps
      obtain ⟨content, hc⟩ := Option.isSome_iff_exists.mp (hps p (by simp))
      simp only [processFiles, hashlib_new_checksum halg, _hash_file, hc]
      exact ih _ (fun q hq => hps q (by simp [hq]))

/-- Building a payload manifest never raises when the algorithm is accepted
and the walked files are stored. -/
lemma create_payload_ok (fs : FS) (s : ManifestClassState) (data_dir : PathC) {alg : String}
    (h : alg ∈ CHECKSUM_NAMES) :
    ∃ s', _create_payload_manifest fs s data_dir alg = .ok (⟨alg⟩, s') := by
  obtain ⟨s', hs'⟩ := processFiles_ok h (fs.walkFiles data_dir) s
    (fun p hp => mem_walkFiles_isSome hp)
  exact ⟨s', by simp [_create_payload_manifest, manifest_init_checksum h, hs']⟩

/-- In dry-run mode the move loop reports only and leaves the filesystem
untouched. -/
lemma moveEntries_dryrun (fs : FS) (directory data_dir : PathC) (dI : Bool) :
    ∀ names, moveEntries fs directory data_dir true dI names = .ok fs
  | [] => rfl
  | name :: rest => by
      by_cases h : name = "data" ∧ dI
      · simp only [moveEntries, if_pos h]
        exact moveEntries_dryrun fs directory data_dir dI rest
      · simp only [moveEntries, if_neg h, if_pos rfl]
        exact moveEntries_dryrun fs directory data_dir dI rest

/-- A freshly written file reads back. -/
lemma lookup_setFile_self (fs : FS) (p : PathC) (c : String) :
    (fs.setFile p c).files.lookup p = some c := by
  simp [FS.setFile, List.lookup]

/-- Erasing one key leaves the lookup of any other key unchanged. -/
lemma lookup_eraseKey_ne {l : List (PathC × String)} {p q : PathC} (h : q ≠ p) :
    (eraseKey l p).lookup q = l.lookup q := by
  induction l with
  | nil => rfl
  | cons e t ih =>
      obtain ⟨k, v⟩ := e
      by_cases hk : k = p
      · subst hk
        have hb : (q == k) = false := by simp [h]
        simp only [eraseKey, List.filter] at *
        simp only [beq_self_eq_true, Bool.not_true]
        simpa [List.lookup, hb] using ih
      · have hkb : (k == p) = false := by simp [hk]
        simp only [eraseKey, List.filter, hkb, Bool.not_false] at *
        by_cases hq : q = k
        · simp [List.lookup, hq]
        · have hqb : (q == k) = false := by simp [hq]
          simpa [List.lookup, hqb] using ih

/-- Writing one file leaves the lookup of any other path unchanged. -/
lemma lookup_setFile_ne {fs : FS} {p q : PathC} {c : String} (h : q ≠ p) :
    (fs.setFile p c).files.lookup q = fs.files.lookup q := by
  have hb : (q == p) = false := by simp [h]
  simp only [FS.setFile]
  rw [show List.lookup q ((p, c) :: eraseKey fs.files p) =
    List.lookup q (eraseKey fs.files p) from by simp [List.lookup, hb]]
  exact lookup_eraseKey_ne h

/-- A manifest file name is never `bagit.txt`, whatever the algorithm. -/
lemma manifest_txt_ne_bagit (alg : String) : ("manifest-" ++ alg ++ ".txt") ≠ "bagit.txt" := by
  intro h
  have hd := congrArg String.data h
  rw [String.data_append, String.data_append] at hd
  have h2 := congrArg (fun l : List Char => l.headD ' ') hd
  have h3 : ('m' : Char) = 'b' := h2
  exact absurd h3 (by decide)

/-- The manifest key written at the bag root differs from the `bagit.txt`
key. -/
lemma manifest_key_ne_bagit (directory : PathC) (alg : String) :
    directory ++ ["manifest-" ++ alg ++ ".txt"] ≠ directory ++ ["bagit.txt"] := by
  intro h
  have h2 := List.append_cancel_left h
  simp only [List.cons.injEq, and_true] at h2
  exact manifest_txt_ne_bagit alg h2

/-! ### Helper lemmas about moving (for the C5 move-step theorem) -/

/-- Appending different last components gives different paths. -/
lemma append_singleton_ne {a : PathC} {x y : String} (h : x ≠ y) :
    a ++ [x] ≠ a ++ [y] := by
  intro he
  have h2 := List.append_cancel_left he
  simp only [List.cons.injEq, and_true] at h2
  exact h h2

/-- Two one-component extensions of the same directory that are both prefixes
of the same path name the same component. -/
lemma prefix_same_head {a : PathC} {x y : String} {q : PathC}
    (hx : (a ++ [x]).isPrefixOf q = true) (hy : (a ++ [y]).isPrefixOf q = true) : x = y := by
  obtain ⟨t, ht⟩ := List.isPrefixOf_iff_prefix.mp hx
  obtain ⟨s, hs⟩ := List.isPrefixOf_iff_prefix.mp hy
  rw [← hs] at ht
  rw [List.append_assoc, List.append_assoc] at ht
  have h2 := List.append_cancel_left ht
  simp only [List.cons_append, List.nil_append, List.cons.injEq] at h2
  exact h2.1

/-- `renameUnder` on a path below `src`. -/
lemma renameUnder_inside {src dst q : PathC} (h : src.isPrefixOf q = true) :
    renameUnder src dst q = dst ++ q.drop src.length := by
  simp [renameUnder, h]

/-- `renameUnder` does not touch paths not below `src`. -/
lemma renameUnder_outside {src dst q : PathC} (h : ¬ src.isPrefixOf q = true) :
    renameUnder src dst q = q := by
  simp [renameUnder, h]

/-- Renaming a subtree onto itself changes nothing. -/
lemma renameUnder_self (src q : PathC) : renameUnder src src q = q := by
  by_cases h : src.isPrefixOf q = true
  · obtain ⟨t, rfl⟩ := List.isPrefixOf_iff_prefix.mp h
    rw [renameUnder_inside h, List.drop_left]
  · exact renameUnder_outside h

/-- Moving a subtree onto itself is the identity on the filesystem. -/
lemma movePath_self (fs : FS) (src : PathC) : fs.movePath src src = fs := by
  obtain ⟨fl, dl⟩ := fs
  have h1 : List.map (fun e : PathC × String => (renameUnder src src e.1, e.2)) fl = fl := by
    induction fl with
    | nil => rfl
    | cons e t ih => simp [renameUnder_self, ih]
  have h2 : List.map (renameUnder src src) dl = dl := by
    induction dl with
    | nil => rfl
    | cons q t ih => simp [renameUnder_self, ih]
  simp [FS.movePath, h1, h2]

/-- Forward membership through `movePath`, files. -/
lemma movePath_mem_files (src dst : PathC) {fs : FS} {q : PathC} {c : String}
    (h : (q, c) ∈ fs.files) :
    (renameUnder src dst q, c) ∈ (fs.movePath src dst).files :=
  List.mem_map_of_mem (fun e => (renameUnder src dst e.1, e.2)) h

/-- Forward membership through `movePath`, directories. -/
lemma movePath_mem_dirs (src dst : PathC) {fs : FS} {q : PathC} (h : q ∈ fs.dirs) :
    renameUnder src dst q ∈ (fs.movePath src dst).dirs :=
  List.mem_map_of_mem (renameUnder src dst) h

/-- Backward membership through `movePath`, files: every file of the moved
filesystem is the image of an original file. -/
lemma mem_movePath_files_inv {fs : FS} {src dst q' : PathC} {c : String}
    (h : (q', c) ∈ (fs.movePath src dst).files) :
    ∃ q, (q, c) ∈ fs.files ∧ q' = renameUnder src dst q := by
  rcases List.mem_map.mp h with ⟨⟨q, c₂⟩, hm, he⟩
  simp only [Prod.mk.injEq] at he
  exact ⟨q, by rw [he.2] at hm; exact hm, he.1.symm⟩

/-- Backward membership through `movePath`, directories. -/
lemma mem_movePath_dirs_inv {fs : FS} {src dst q' : PathC}
    (h : q' ∈ (fs.movePath src dst).dirs) :
    ∃ q, q ∈ fs.dirs ∧ q' = renameUnder src dst q := by
  rcases List.mem_map.mp h with ⟨q, hm, he⟩
  exact ⟨q, hm, he.symm⟩

/-- `isdir` is membership in the directory list. -/
lemma isdir_iff_mem {fs : FS} {p : PathC} : fs.isdir p = true ↔ p ∈ fs.dirs := by
  simp [FS.isdir, List.elem_iff]

/-- A same-path `shutil.move` that succeeds is a no-op. -/
lemma shutil_move_self_ok {fs fs2 : FS} {src : PathC}
    (h : shutil_move fs src src = .ok fs2) : fs2 = fs := by
  unfold shutil_move at h
  by_cases h1 : (fs.isfile src || fs.isdir src) = true
  · rw [if_pos h1] at h
    by_cases h2 : fs.isdir src = true
    · rw [if_pos h2, if_pos rfl] at h
      exact (Except.ok.inj h).symm
    · rw [if_neg h2] at h
      have h3 : ¬ (fs.isdir src && List.isPrefixOf src src) = true := by
        simp only [Bool.and_eq_true]
        rintro ⟨h4, -⟩
        exact h2 h4
      rw [if_neg h3, movePath_self] at h
      exact (Except.ok.inj h).symm
  · rw [if_neg h1] at h
    exact absurd h (by simp)

/-- A successful `shutil.move` of a distinct source into an existing
directory is the subtree move onto `dst ++ [basename src]`. -/
lemma shutil_move_into_dir {fs fs2 : FS} {src dst : PathC}
    (h : shutil_move fs src dst = .ok fs2) (hdst : fs.isdir dst = true) (hne : src ≠ dst) :
    fs2 = fs.movePath src (dst ++ [src.getLastD ""]) := by
  unfold shutil_move at h
  by_cases h1 : (fs.isfile src || fs.isdir src) = true
  · rw [if_pos h1, if_pos hdst, if_neg hne] at h
    by_cases h2 : (fs.isfile (dst ++ [src.getLastD ""]) ||
        fs.isdir (dst ++ [src.getLastD ""])) = true
    · rw [if_pos h2] at h
      exact absurd h (by simp)
    · rw [if_neg h2] at h
      by_cases h3 : (fs.isdir src && List.isPrefixOf src (dst ++ [src.getLastD ""])) = true
      · rw [if_pos h3] at h
        exact absurd h (by simp)
      · rw [if_neg h3] at h
        exact (Except.ok.inj h).symm
  · rw [if_neg h1] at h
    exact absurd h (by simp)

/-- Any successful `shutil.move` either changes nothing or moves the source
subtree to a destination at or below `dst`. -/
lemma shutil_move_ok_cases {fs fs2 : FS} {src dst : PathC}
    (h : shutil_move fs src dst = .ok fs2) :
    fs2 = fs ∨ ∃ R, dst.isPrefixOf R = true ∧ fs2 = fs.movePath src R := by
  unfold shutil_move at h
  by_cases h1 : (fs.isfile src || fs.isdir src) = true
  · rw [if_pos h1] at h
    by_cases hd : fs.isdir dst = true
    · rw [if_pos hd] at h
      by_cases he : src = dst
      · rw [if_pos he] at h
        exact Or.inl (Except.ok.inj h).symm
      · rw [if_neg he] at h
        by_cases h2 : (fs.isfile (dst ++ [src.getLastD ""]) ||
            fs.isdir (dst ++ [src.getLastD ""])) = true
        · rw [if_pos h2] at h
          exact absurd h (by simp)
        · rw [if_neg h2] at h
          by_cases h3 : (fs.isdir src && List.isPrefixOf src (dst ++ [src.getLastD ""])) = true
          · rw [if_pos h3] at h
            exact absurd h (by simp)
          · rw [if_neg h3] at h
            exact Or.inr ⟨dst ++ [src.getLastD ""],
              List.isPrefixOf_iff_prefix.mpr (List.prefix_append ..),
              (Except.ok.inj h).symm⟩
    · rw [if_neg hd] at h
      by_cases h3 : (fs.isdir src && List.isPrefixOf src dst) = true
      · rw [if_pos h3] at h
        exact absurd h (by simp)
      · rw [if_neg h3] at h
        exact Or.inr ⟨dst, List.isPrefixOf_iff_prefix.mpr List.prefix_rfl,
          (Except.ok.inj h).symm⟩
  · rw [if_neg h1] at h
    exact absurd h (by simp)

/-- The basename of `directory/name` is `name`. -/
lemma getLastD_append_singleton (a : PathC) (x d : String) :
    (a ++ [x]).getLastD d = x := by
  simp [List.getLastD_concat]

/-- One step of the non-dry-run move loop: the `data` entry leaves the
filesystem unchanged (skipped by the guard, or a `_samefile` no-op), and any
other entry is the subtree move onto `data/<name>`. -/
lemma moveEntries_cons_ok {fs fs' : FS} {directory : PathC} {dI : Bool}
    {name : String} {rest : List String}
    (h : moveEntries fs directory (directory ++ ["data"]) false dI (name :: rest) = .ok fs')
    (hd : fs.isdir (directory ++ ["data"]) = true) :
    (name = "data" ∧
      moveEntries fs directory (directory ++ ["data"]) false dI rest = .ok fs') ∨
    (name ≠ "data" ∧
      moveEntries (fs.movePath (directory ++ [name]) (directory ++ ["data", name]))
        directory (directory ++ ["data"]) false dI rest = .ok fs') := by
  by_cases hg : name = "data" ∧ dI
  · exact Or.inl ⟨hg.1, by simpa [moveEntries, hg] using h⟩
  · simp only [moveEntries, if_neg hg, Bool.false_eq_true, if_false] at h
    cases hsm : shutil_move fs (directory ++ [name]) (directory ++ ["data"]) with
    | error e => simp [hsm] at h
    | ok fs2 =>
        simp only [hsm] at h
        by_cases hn : name = "data"
        · subst hn
          rw [shutil_move_self_ok hsm] at h
          exact Or.inl ⟨rfl, h⟩
        · have he := shutil_move_into_dir hsm hd (append_singleton_ne hn)
          rw [getLastD_append_singleton] at he
          have hd2 : directory ++ ["data"] ++ [name] = directory ++ ["data", name] := by
            simp
          rw [hd2] at he
          rw [he] at h
          exact Or.inr ⟨hn, h⟩

/-- Moving one non-`data` entry keeps `data/` in place and leaves everything
already under `data/` untouched. -/
lemma movePath_entry_keeps_data {fs : FS} {directory : PathC} {name : String}
    (hn : name ≠ "data") (hd : fs.isdir (directory ++ ["data"]) = true) :
    (fs.movePath (directory ++ [name]) (directory ++ ["data", name])).isdir
      (directory ++ ["data"]) = true ∧
    (∀ q c, (q, c) ∈ fs.files → (directory ++ ["data"]).isPrefixOf q = true →
      (q, c) ∈ (fs.movePath (directory ++ [name]) (directory ++ ["data", name])).files) ∧
    (∀ q, q ∈ fs.dirs → (directory ++ ["data"]).isPrefixOf q = true →
      q ∈ (fs.movePath (directory ++ [name]) (directory ++ ["data", name])).dirs) := by
  have hnot : ∀ q : PathC, (directory ++ ["data"]).isPrefixOf q = true →
      ¬ (directory ++ [name]).isPrefixOf q = true :=
    fun q hq hc => hn (prefix_same_head hc hq)
  have hself : (directory ++ ["data"]).isPrefixOf (directory ++ ["data"]) = true :=
    List.isPrefixOf_iff_prefix.mpr List.prefix_rfl
  refine ⟨?_, ?_, ?_⟩
  · have h1 := movePath_mem_dirs (directory ++ [name])
      (directory ++ ["data", name]) (isdir_iff_mem.mp hd)
    rw [renameUnder_outside (hnot _ hself)] at h1
    exact isdir_iff_mem.mpr h1
  · intro q c hq hpre
    have h1 := movePath_mem_files (directory ++ [name])
      (directory ++ ["data", name]) hq
    rwa [renameUnder_outside (hnot q hpre)] at h1
  · intro q hq hpre
    have h1 := movePath_mem_dirs (directory ++ [name])
      (directory ++ ["data", name]) hq
    rwa [renameUnder_outside (hnot q hpre)] at h1

/-- Through a successful run of the move loop, `data/` stays in place and
entries already under `data/` are untouched. -/
lemma moveEntries_keeps_data (directory : PathC) (dI : Bool) :
    ∀ (names : List String) (fs fs' : FS),
      moveEntries fs directory (directory ++ ["data"]) false dI names = .ok fs' →
      fs.isdir (directory ++ ["data"]) = true →
      fs'.isdir (directory ++ ["data"]) = true ∧
      (∀ q c, (q, c) ∈ fs.files → (directory ++ ["data"]).isPrefixOf q = true →
        (q, c) ∈ fs'.files) ∧
      (∀ q, q ∈ fs.dirs → (directory ++ ["data"]).isPrefixOf q = true → q ∈ fs'.dirs)
  | [], fs, fs', h, hd => by
      have he : fs' = fs := (Except.ok.inj h).symm
      subst he
      exact ⟨hd, fun q c hq _ => hq, fun q hq _ => hq⟩
  | name :: rest, fs, fs', h, hd => by
      rcases moveEntries_cons_ok h hd with ⟨hn, h2⟩ | ⟨hn, h2⟩
      · exact moveEntries_keeps_data directory dI rest fs fs' h2 hd
      · obtain ⟨hd2, hkf, hkd⟩ := movePath_entry_keeps_data hn hd
        obtain ⟨ih1, ih2, ih3⟩ := moveEntries_keeps_data directory dI rest _ fs' h2 hd2
        exact ⟨ih1, fun q c hq hpre => ih2 q c (hkf q c hq hpre) hpre,
          fun q hq hpre => ih3 q (hkd q hq hpre) hpre⟩

/-- Through a successful run of the move loop, a top-level subtree other than
`data/` that is already empty stays empty: every step either keeps paths or
sends them under `data/`. -/
lemma moveEntries_preserves_clean (directory : PathC) (dI : Bool) (n : String)
    (hn : n ≠ "data") :
    ∀ (names : List String) (fs fs' : FS),
      moveEntries fs directory (directory ++ ["data"]) false dI names = .ok fs' →
      (∀ q c, (q, c) ∈ fs.files → ¬ (directory ++ [n]).isPrefixOf q = true) →
      (∀ q, q ∈ fs.dirs → ¬ (directory ++ [n]).isPrefixOf q = true) →
      (∀ q c, (q, c) ∈ fs'.files → ¬ (directory ++ [n]).isPrefixOf q = true) ∧
      (∀ q, q ∈ fs'.dirs → ¬ (directory ++ [n]).isPrefixOf q = true)
  | [], fs, fs', h, hf, hdir => by
      have he : fs' = fs := (Except.ok.inj h).symm
      subst he
      exact ⟨hf, hdir⟩
  | name :: rest, fs, fs', h, hf, hdir => by
      by_cases hg : name = "data" ∧ dI
      · exact moveEntries_preserves_clean directory dI n hn rest fs fs'
          (by simpa [moveEntries, hg] using h) hf hdir
      · simp only [moveEntries, if_neg hg, Bool.false_eq_true, if_false] at h
        cases hsm : shutil_move fs (directory ++ [name]) (directory ++ ["data"]) with
        | error e => simp [hsm] at h
        | ok fs2 =>
            simp only [hsm] at h
            rcases shutil_move_ok_cases hsm with he | ⟨R, hR, he⟩
            · subst he
              exact moveEntries_preserves_clean directory dI n hn rest fs2 fs' h hf hdir
            · subst he
              have himg : ∀ q0 : PathC,
                  ¬ (directory ++ [n]).isPrefixOf
                    (R ++ q0.drop (directory ++ [name]).length) = true := by
                intro q0 hcon
                have hdR : (directory ++ ["data"]).isPrefixOf
                    (R ++ q0.drop (directory ++ [name]).length) = true :=
                  List.isPrefixOf_iff_prefix.mpr
                    ((List.isPrefixOf_iff_prefix.mp hR).trans (List.prefix_append ..))
                exact hn (prefix_same_head hcon hdR)
              refine moveEntries_preserves_clean directory dI n hn rest _ fs' h ?_ ?_
              · intro q c hq
                rcases mem_movePath_files_inv hq with ⟨q0, hq0, rfl⟩
                by_cases hp : (directory ++ [name]).isPrefixOf q0 = true
                · rw [renameUnder_inside hp]
                  exact himg q0
                · rw [renameUnder_outside hp]
                  exact hf q0 c hq0
              · intro q hq
                rcases mem_movePath_dirs_inv hq with ⟨q0, hq0, rfl⟩
                by_cases hp : (directory ++ [name]).isPrefixOf q0 = true
                · rw [renameUnder_inside hp]
                  exact himg q0
                · rw [renameUnder_outside hp]
                  exact hdir q0 hq0

/-- Through a successful run of the move loop over a listing containing `n`
(distinct from `data`), the whole subtree rooted at top-level entry `n` is
relocated under `data/n` — contents and relative structure preserved — and
nothing remains under the old top-level location. -/
lemma moveEntries_moves (directory : PathC) (dI : Bool) (n : String) (hn : n ≠ "data") :
    ∀ (names : List String) (fs fs' : FS),
      moveEntries fs directory (directory ++ ["data"]) false dI names = .ok fs' →
      fs.isdir (directory ++ ["data"]) = true →
      n ∈ names →
      (∀ q c, (q, c) ∈ fs.files → (directory ++ [n]).isPrefixOf q = true →
        (directory ++ ["data", n] ++ q.drop (directory.length + 1), c) ∈ fs'.files) ∧
      (∀ q, q ∈ fs.dirs → (directory ++ [n]).isPrefixOf q = true →
        directory ++ ["data", n] ++ q.drop (directory.length + 1) ∈ fs'.dirs) ∧
      (∀ q c, (q, c) ∈ fs'.files → ¬ (directory ++ [n]).isPrefixOf q = true) ∧
      (∀ q, q ∈ fs'.dirs → ¬ (directory ++ [n]).isPrefixOf q = true)
  | [], _, _, _, _, hmem => absurd hmem (List.not_mem_nil n)
  | name :: rest, fs, fs', h, hd, hmem => by
      rcases moveEntries_cons_ok h hd with ⟨hne, h2⟩ | ⟨hne, h2⟩
      · have hnr : n ∈ rest := by
          rcases List.mem_cons.mp hmem with he | he
          · exact absurd (he.trans hne) hn
          · exact he
        exact moveEntries_moves directory dI n hn rest fs fs' h2 hd hnr
      · obtain ⟨hd2, hkf, hkd⟩ := movePath_entry_keeps_data hne hd
        by_cases hnm : n = name
        · subst hnm
          have hlen : (directory ++ [n]).length = directory.length + 1 := by simp
          have hdpre : ∀ t : List String, (directory ++ ["data"]).isPrefixOf
              (directory ++ ["data", n] ++ t) = true := by
            intro t
            refine List.isPrefixOf_iff_prefix.mpr ⟨n :: t, ?_⟩
            simp
          obtain ⟨ik1, ik2, ik3⟩ := moveEntries_keeps_data directory dI rest _ fs' h2 hd2
          obtain ⟨ic1, ic2⟩ := moveEntries_preserves_clean directory dI n hn rest _ fs' h2
            (fun q c hq => by
              rcases mem_movePath_files_inv hq with ⟨q0, hq0, rfl⟩
              by_cases hp : (directory ++ [n]).isPrefixOf q0 = true
              · rw [renameUnder_inside hp]
                intro hcon
                exact hn (prefix_same_head hcon (hdpre _))
              · rw [renameUnder_outside hp]
                exact hp)
            (fun q hq => by
              rcases mem_movePath_dirs_inv hq with ⟨q0, hq0, rfl⟩
              by_cases hp : (directory ++ [n]).isPrefixOf q0 = true
              · rw [renameUnder_inside hp]
                intro hcon
                exact hn (prefix_same_head hcon (hdpre _))
              · rw [renameUnder_outside hp]
                exact hp)
          refine ⟨?_, ?_, ic1, ic2⟩
          · intro q c hq hpre
            have h1 := movePath_mem_files (directory ++ [n])
              (directory ++ ["data", n]) hq
            rw [renameUnder_inside hpre, hlen] at h1
            exact ik2 _ c h1 (hdpre _)
          · intro q hq hpre
            have h1 := movePath_mem_dirs (directory ++ [n])
              (directory ++ ["data", n]) hq
            rw [renameUnder_inside hpre, hlen] at h1
            exact ik3 _ h1 (hdpre _)
        · have hnr : n ∈ rest := by
            rcases List.mem_cons.mp hmem with he | he
            · exact absurd he hnm
            · exact he
          have hnot : ∀ q : PathC, (directory ++ [n]).isPrefixOf q = true →
              ¬ (directory ++ [name]).isPrefixOf q = true :=
            fun q hq hc => hnm (prefix_same_head hq hc)
          obtain ⟨ih1, ih2, ih3, ih4⟩ :=
            moveEntries_moves directory dI n hn rest _ fs' h2 hd2 hnr
          refine ⟨?_, ?_, ih3, ih4⟩
          · intro q c hq hpre
            have h1 := movePath_mem_files (directory ++ [name])
              (directory ++ ["data", name]) hq
            rw [renameUnder_outside (hnot q hpre)] at h1
            exact ih1 q c h1 hpre
          · intro q hq hpre
            have h1 := movePath_mem_dirs (directory ++ [name])
              (directory ++ ["data", name]) hq
            rw [renameUnder_outside (hnot q hpre)] at h1
            exact ih2 q h1 hpre

/-! ### Claim theorems -/

/-- C1: the claim states that every pair of distinct `Manifest` instances owns
independently constructed, initially empty entry mappings, and that adding an
entry to one never changes the entries of any other.  The code violates this:
`fileToChecksumMap` is a class-level dict that `__init__` never replaces, so
after two instances are constructed (both constructions succeed), inserting an
entry through the first makes the second instance's entries non-empty too. -/
theorem C1_manifest_map_shared :
    Manifest.init "md5" = .ok ⟨"md5"⟩ ∧
    Manifest.init "sha1" = .ok ⟨"sha1"⟩ ∧
    Manifest.fileToChecksumMap ⟨"sha1"⟩ ⟨[]⟩ = [] ∧
    Manifest.fileToChecksumMap ⟨"sha1"⟩
        (Manifest.setChecksum ⟨"md5"⟩ ⟨[]⟩ ["d", "data", "a.txt"] "md5:104.105") =
      [(["d", "data", "a.txt"], "md5:104.105")] :=
  ⟨rfl, rfl, rfl, rfl⟩

/-- C2: the claim states that an extra unreferenced regular file under `data/`
makes `is_complete` false.  The code violates it: inside
`_check_all_files_in_payload_dir_exist_in_at_least_one_manifest` the dangling
comma in `os.path.join(dir_name, )` drops the file name, so the check tests
the directory itself (never a file) and always passes.  Concretely:
`data/extra.txt` is a stored file that no manifest references, yet
`is_complete` still returns true. -/
theorem C2_unreferenced_payload_file_not_detected :
    FS.isfile fsExtraFileBag ["b", "data", "extra.txt"] = true ∧
    _all_files_in_manifests fsExtraFileBag ["b"] = .ok [["b", "data", "a.txt"]] ∧
    (([["b", "data", "a.txt"]] : List PathC).contains ["b", "data", "extra.txt"]) = false ∧
    is_complete fsExtraFileBag ["b"] = .ok true :=
  ⟨rfl, rfl, rfl, rfl⟩

/-- C3: `is_valid` returning true forces `is_complete` true (the source's
final statement is `return is_complete(bag_directory)`), and the converse
fails: on the byte-flipped bag `is_complete` is still true while `is_valid`
is false. -/
theorem C3_valid_implies_complete_not_conversely :
    (∀ (fs : FS) (bag_directory : PathC), is_valid fs bag_directory = .ok true →
        is_complete fs bag_directory = .ok true) ∧
    is_complete fsFlippedBag ["b"] = .ok true ∧
    is_valid fsFlippedBag ["b"] = .ok false := by
  refine ⟨?_, rfl, rfl⟩
  intro fs bag h
  unfold is_valid at h
  cases hl : is_valid_loop fs bag (fs.listdir bag) with
  | error e => rw [hl] at h; exact absurd h (by simp)
  | ok b =>
      cases b with
      | true => rw [hl] at h; exact h
      | false => rw [hl] at h; exact absurd h (by simp)

/-- C3 witness: on the concrete valid bag, `is_valid` evaluates to true, and
the theorem then yields `is_complete` true. -/
theorem C3_witness : is_complete fsValidBag ["b"] = .ok true :=
  C3_valid_implies_complete_not_conversely.1 fsValidBag ["b"] rfl

/-- C4 counterexample: the claim states that a manifest-referenced file
missing on disk makes `is_valid` return false rather than raise.  On the
concrete bag whose manifest references the absent `data/missing.txt`,
`is_valid` instead propagates the I/O error raised by `_hash_file`'s `open`. -/
theorem C4_missing_file_raises :
    is_valid fsMissingRefBag ["b"] = .error .ioError :=
  rfl

/-- C4 amended: completeness failures and digest mismatches are reported as
boolean results, but a manifest-referenced file missing on disk during the
digest recomputation makes the I/O error propagate instead of a false
return.  Stated generally: (1) whenever the two line-parsing passes return
(with values `af` and `bf`), `is_complete` is the boolean conjunction of the
six checks — so any failing completeness check yields `.ok false`, never an
exception; (2) one step of the digest-recomputation loop over a well-formed
line with a supported algorithm returns the boolean digest comparison when
the referenced file exists, and raises `.ioError` when it does not; (3) on
concrete bags, a digest mismatch makes `is_valid` return `.ok false` while a
missing referenced file makes `is_valid` propagate `.ioError`. -/
theorem C4_boolean_reports_but_missing_raises
    (fs : FS) (bag : PathC) (af : List PathC) (bf : Bool)
    (alg line : String) (d pf : List Char) (r : Option String)
    (h1 : _all_files_in_manifests fs bag = .ok af)
    (h2 : _check_fetch_items_exist fs bag = .ok bf)
    (h3 : pySplitWs 1 line.toList = [d, pf])
    (h4 : alg ∈ hashlib_algorithms_guaranteed)
    (h5 : fs.files.lookup (pyJoinRstrip bag pf.asString) = r) :
    is_complete fs bag =
      .ok (bf && _check_bagit_file_exists fs bag && _check_payload_directory_exists fs bag &&
        _check_at_least_one_payload_manifest_exists fs bag &&
        _check_all_files_in_manifests_exist fs af &&
        _check_all_files_in_payload_dir_exist_in_at_least_one_manifest fs bag af) ∧
    checkManifestLine fs bag alg line =
      (match r with
       | none => .error .ioError
       | some content =>
           .ok (d.asString == Hasher.hexdigest
             ((readBlocks READ_BUFFER content.toList).foldl Hasher.update ⟨alg, []⟩))) ∧
    is_valid fsWrongDigestBag ["c"] = .ok false ∧
    is_valid fsMissingRefBag ["b"] = .error .ioError := by
  refine ⟨by simp [is_complete, h1, h2], ?_, rfl, rfl⟩
  have hh : hashlib_new alg = .ok ⟨alg, []⟩ := by simp [hashlib_new, h4]
  simp only [checkManifestLine, h3, hh, _hash_file, h5]
  cases r <;> rfl

/-- C4 witness: the general clauses instantiated at the concrete valid bag
and its correct manifest line. -/
theorem C4_witness :
    is_complete fsValidBag ["b"] =
      .ok (true && _check_bagit_file_exists fsValidBag ["b"] &&
        _check_payload_directory_exists fsValidBag ["b"] &&
        _check_at_least_one_payload_manifest_exists fsValidBag ["b"] &&
        _check_all_files_in_manifests_exist fsValidBag [["b", "data", "a.txt"]] &&
        _check_all_files_in_payload_dir_exist_in_at_least_one_manifest fsValidBag ["b"]
          [["b", "data", "a.txt"]]) ∧
    checkManifestLine fsValidBag ["b"] "md5" "md5:104.105 data/a.txt\n" =
      (match some "hi" with
       | none => .error .ioError
       | some content =>
           .ok (("md5:104.105".toList).asString == Hasher.hexdigest
             ((readBlocks READ_BUFFER content.toList).foldl Hasher.update ⟨"md5", []⟩))) ∧
    is_valid fsWrongDigestBag ["c"] = .ok false ∧
    is_valid fsMissingRefBag ["b"] = .error .ioError :=
  C4_boolean_reports_but_missing_raises fsValidBag ["b"] [["b", "data", "a.txt"]] true
    "md5" "md5:104.105 data/a.txt\n" ("md5:104.105".toList) ("data/a.txt\n".toList)
    (some "hi") rfl rfl rfl (by decide) rfl

/-- C5: after a successful non-dry-run move step (step 2 of `bag_in_place`,
run when `data/` has just been created as a directory), every top-level entry
of the directory except `data/` has been moved into `data/` — contents kept
and relative structure preserved, with nothing left at the old location — and
the `data/` directory itself is never moved.  This holds for either outcome of
the source's `is not "data"` identity test (`dI`): when the guard fails to
skip the `data` entry, the resulting same-path `shutil.move` takes the
`_samefile` branch and no-ops. -/
theorem C5_move_step_moves_all_but_data (fs fs' : FS) (directory : PathC) (dI : Bool)
    (h : _move_files_to_data_dir fs directory (directory ++ ["data"]) false dI = .ok fs')
    (hd : fs.isdir (directory ++ ["data"]) = true) :
    fs'.isdir (directory ++ ["data"]) = true ∧
    (∀ n ∈ fs.listdir directory, n ≠ "data" →
      (∀ q c, (q, c) ∈ fs.files → (directory ++ [n]).isPrefixOf q = true →
        (directory ++ ["data", n] ++ q.drop (directory.length + 1), c) ∈ fs'.files) ∧
      (∀ q, q ∈ fs.dirs → (directory ++ [n]).isPrefixOf q = true →
        directory ++ ["data", n] ++ q.drop (directory.length + 1) ∈ fs'.dirs) ∧
      (∀ q c, (q, c) ∈ fs'.files → ¬ (directory ++ [n]).isPrefixOf q = true) ∧
      (∀ q, q ∈ fs'.dirs → ¬ (directory ++ [n]).isPrefixOf q = true)) :=
  ⟨(moveEntries_keeps_data directory dI (fs.listdir directory) fs fs' h hd).1,
    fun n hmem hn =>
      moveEntries_moves directory dI n hn (fs.listdir directory) fs fs' h hd hmem⟩

/-- C5 witness: the move-step theorem applied to the concrete directory, with
the CPython-realistic identity outcome (`dataIdentical = false`, so the
`data` entry reaches `shutil.move` and no-ops there). -/
theorem C5_witness :
    FS.isdir fsPlainMoved (["d"] ++ ["data"]) = true ∧
    (∀ n ∈ FS.listdir fsPlainWithData ["d"], n ≠ "data" →
      (∀ q c, (q, c) ∈ fsPlainWithData.files →
          (["d"] ++ [n] : PathC).isPrefixOf q = true →
        (["d"] ++ ["data", n] ++ q.drop ((["d"] : PathC).length + 1), c) ∈
          fsPlainMoved.files) ∧
      (∀ q, q ∈ fsPlainWithData.dirs → (["d"] ++ [n] : PathC).isPrefixOf q = true →
        ["d"] ++ ["data", n] ++ q.drop ((["d"] : PathC).length + 1) ∈ fsPlainMoved.dirs) ∧
      (∀ q c, (q, c) ∈ fsPlainMoved.files → ¬ (["d"] ++ [n] : PathC).isPrefixOf q = true) ∧
      (∀ q, q ∈ fsPlainMoved.dirs → ¬ (["d"] ++ [n] : PathC).isPrefixOf q = true)) :=
  C5_move_step_moves_all_but_data fsPlainWithData fsPlainMoved ["d"] false rfl rfl

/-- C7: the claim states that the fetch-item check succeeds whenever every
file named by the third whitespace-separated field exists.  The code violates
it: the field is taken verbatim from `line.split(maxsplit=2)[2]` with no
rstrip, so a newline-terminated line keeps its `'\n'` in the path and the
existence test fails.  Concretely `a.txt` exists at the bag root, yet the
check returns false. -/
theorem C7_fetch_keeps_trailing_newline :
    FS.isfile fsFetchBag ["b", "a.txt"] = true ∧
    (pySplitWs 2 ("http://x 1 a.txt\n").toList).map List.asString =
      ["http://x", "1", "a.txt\n"] ∧
    _check_fetch_items_exist fsFetchBag ["b"] = .ok false :=
  ⟨rfl, rfl, rfl⟩

/-- C6 counterexample: the claim states a dry run changes no filesystem state
anywhere.  But `bag_in_place` constructs a `Bag` first, and `Bag.__init__`
calls `tempfile.mkdtemp()`, so even a dry run creates one new temporary
directory: here `tmp2`, absent before the call and present after it. -/
theorem C6_dry_run_creates_tempdir :
    bag_in_place fsDryDir ⟨[]⟩ ["e"] true "md5" false =
      .ok ({ version := ⟨0, 97⟩, fileEncoding := "utf-8", itemsToFetch := [],
             payLoadManifests := [⟨"md5"⟩], tagManifests := [], metadata := [],
             rootDir := ["e"] },
           ⟨fsDryDir.files, ["tmp2"] :: fsDryDir.dirs⟩, ⟨[]⟩) ∧
    FS.isdir fsDryDir ["tmp2"] = false ∧
    FS.isdir ⟨fsDryDir.files, ["tmp2"] :: fsDryDir.dirs⟩ ["tmp2"] = true :=
  ⟨rfl, rfl, rfl⟩

/-- C6 amended: a dry run performs no mutation at all under the target
directory — the files are exactly the input files and no `data/` directory,
`bagit.txt` or manifest is created — but the `Bag` constructor still creates
one temporary directory, which is the only filesystem change. -/
theorem C6_dry_run_no_target_mutation (fs : FS) (s : ManifestClassState) (directory : PathC)
    (alg : String) (dI : Bool) (h : alg ∈ CHECKSUM_NAMES) :
    ∃ b s', bag_in_place fs s directory true alg dI =
      .ok (b, ⟨fs.files, mkdtempPath fs :: fs.dirs⟩, s') := by
  obtain ⟨s', hs'⟩ := create_payload_ok ⟨fs.files, mkdtempPath fs :: fs.dirs⟩ s
    (directory ++ ["data"]) h
  refine ⟨⟨⟨0, 97⟩, "utf-8", [], [⟨alg⟩], [], [], directory⟩, s', ?_⟩
  simp [bag_in_place, Bag.init, tempfile_mkdtemp, _create_data_directory,
    _move_files_to_data_dir, moveEntries_dryrun, _create_bagit_file,
    _write_payload_manifest, hs']

/-- C6 witness: the amended theorem applied to the concrete dry run. -/
theorem C6_dry_run_witness :
    ∃ b s', bag_in_place fsDryDir ⟨[]⟩ ["e"] true "md5" false =
      .ok (b, ⟨fsDryDir.files, mkdtempPath fsDryDir :: fsDryDir.dirs⟩, s') :=
  C6_dry_run_no_target_mutation fsDryDir ⟨[]⟩ ["e"] "md5" false (by decide)

/-- C8 counterexample: the claim states that computing a digest under any
name outside `{md5, sha1, sha256, sha512}` fails with an unsupported-algorithm
error.  But `is_valid` hands the token from the manifest filename straight to
`hashlib.new`, which accepts many more names: `sha224` is outside the four,
yet `hashlib.new` succeeds and a bag whose only manifest is
`manifest-sha224.txt` validates to true. -/
theorem C8_sha224_accepted :
    (CHECKSUM_NAMES.contains "sha224") = false ∧
    hashlib_new "sha224" = .ok ⟨"sha224", []⟩ ∧
    algTokenOf "manifest-sha224.txt" = "sha224" ∧
    is_valid fsSha224Bag ["b"] = .ok true :=
  ⟨rfl, rfl, rfl, rfl⟩

/-- C8 amended: constructing a `Manifest` with a name outside the four fails
immediately (the constructor validates before doing anything else, and takes
no filesystem at all), but digest computation — including the recomputation
`is_valid` performs with the token from the manifest filename — fails only
for names `hashlib` does not support: a name such as `sha224`, outside the
four, is accepted and can even validate a whole bag. -/
theorem C8_construction_rejects_hashlib_accepts (alg : String)
    (h : (CHECKSUM_NAMES.contains alg) = false) :
    Manifest.init alg = .error .valueError ∧
    hashlib_new "sha224" = .ok ⟨"sha224", []⟩ ∧
    algTokenOf "manifest-sha224.txt" = "sha224" ∧
    is_valid fsSha224Bag ["b"] = .ok true := by
  refine ⟨?_, rfl, rfl, rfl⟩
  have hm : alg ∉ CHECKSUM_NAMES := by simpa using h
  simp [Manifest.init, hm]

/-- C8 witness: the amended theorem applied to the concrete name `foo`. -/
theorem C8_witness :
    Manifest.init "foo" = .error .valueError ∧
    hashlib_new "sha224" = .ok ⟨"sha224", []⟩ ∧
    algTokenOf "manifest-sha224.txt" = "sha224" ∧
    is_valid fsSha224Bag ["b"] = .ok true :=
  C8_construction_rejects_hashlib_accepts "foo" (by decide)

/-- The concrete successful non-dry-run bag-in-place of `fsPlainDir`. -/
def runPlain : Except PyError (Bag × FS × ManifestClassState) :=
  bag_in_place fsPlainDir ⟨[]⟩ ["d"] false "md5" true

/-- The computed result triple of `runPlain` (which does succeed). -/
def resPlain : Bag × FS × ManifestClassState :=
  match runPlain with
  | .ok r => r
  | .error _ => (default, ⟨[], []⟩, ⟨[]⟩)

/-- The concrete successful non-dry-run bag-in-place of `fsPlainDir2`. -/
def runPlain2 : Except PyError (Bag × FS × ManifestClassState) :=
  bag_in_place fsPlainDir2 ⟨[]⟩ ["d"] false "md5" true

/-- The computed result triple of `runPlain2`. -/
def resPlain2 : Bag × FS × ManifestClassState :=
  match runPlain2 with
  | .ok r => r
  | .error _ => (default, ⟨[], []⟩, ⟨[]⟩)

/-- C9 amended: on every successful non-dry-run `bag_in_place` the written
`bagit.txt` is exactly the line `BagIt-Version: 0.97` terminated by a
newline, followed by `Tag-File-Character-Encoding: UTF-8` with no trailing
newline (the claim's "newline-terminated lines" fails for the second line:
the source writes the two declarations with a single interior `\n` only). -/
theorem C9_bagit_exact_text (fs : FS) (s : ManifestClassState) (directory : PathC)
    (alg : String) (dI : Bool) (b : Bag) (fs' : FS) (s' : ManifestClassState)
    (h : bag_in_place fs s directory false alg dI = .ok (b, fs', s')) :
    fs'.files.lookup (directory ++ ["bagit.txt"]) =
      some "BagIt-Version: 0.97\nTag-File-Character-Encoding: UTF-8" ∧
    strEndsWith "BagIt-Version: 0.97\nTag-File-Character-Encoding: UTF-8" "\n" = false := by
  refine ⟨?_, rfl⟩
  simp only [bag_in_place, Bag.init, tempfile_mkdtemp] at h
  split at h
  · simp at h
  next q hq =>
    split at h
    · simp at h
    next fs2 hm =>
      split at h
      · simp at h
      next r hr =>
        simp only [Except.ok.injEq, Prod.mk.injEq] at h
        obtain ⟨hb, hfs', hs'⟩ := h
        rw [← hfs']
        simp only [_write_payload_manifest, _create_bagit_file, Bool.false_eq_true,
          if_false, bagitText, Version.str]
        rw [lookup_setFile_ne (Ne.symm (manifest_key_ne_bagit directory r.1.algorithm)),
          lookup_setFile_self]
        rfl

/-- C9 witness: the amended theorem applied to the concrete successful run. -/
theorem C9_witness :
    resPlain2.2.1.files.lookup (["d"] ++ ["bagit.txt"]) =
      some "BagIt-Version: 0.97\nTag-File-Character-Encoding: UTF-8" ∧
    strEndsWith "BagIt-Version: 0.97\nTag-File-Character-Encoding: UTF-8" "\n" = false :=
  C9_bagit_exact_text fsPlainDir2 ⟨[]⟩ ["d"] "md5" true
    resPlain2.1 resPlain2.2.1 resPlain2.2.2 rfl

/-- C9 counterexample: the full concrete run, showing the written `bagit.txt`
content, whose second declaration line is not newline-terminated. -/
theorem C9_bagit_lacks_trailing_newline :
    runPlain = .ok (resPlain.1, resPlain.2.1, resPlain.2.2) ∧
    resPlain.2.1.files.lookup ["d", "bagit.txt"] = some bagitFixedText ∧
    bagitFixedText = "BagIt-Version: 0.97\nTag-File-Character-Encoding: UTF-8" ∧
    strEndsWith bagitFixedText "\n" = false :=
  ⟨rfl, rfl, rfl, rfl⟩

/-- C10: every successful non-dry-run `bag_in_place` returns a `Bag` rooted
at the given directory, carrying exactly one payload manifest (the one whose
serialization was written to `manifest-<algorithm>.txt`), empty tag
manifests, fetch items and metadata, the fixed version 0.97 and utf-8
encoding — and the written `bagit.txt` declares `BagIt-Version: 0.97`. -/
theorem C10_bag_descriptor (fs : FS) (s : ManifestClassState) (directory : PathC)
    (alg : String) (dI : Bool) (b : Bag) (fs' : FS) (s' : ManifestClassState)
    (h : bag_in_place fs s directory false alg dI = .ok (b, fs', s')) :
    b.rootDir = directory ∧ b.version = ⟨0, 97⟩ ∧ b.fileEncoding = "utf-8" ∧
    b.itemsToFetch = [] ∧ b.tagManifests = [] ∧ b.metadata = [] ∧
    fs'.files.lookup (directory ++ ["bagit.txt"]) =
      some ("BagIt-Version: " ++ Version.str ⟨0, 97⟩ ++ "\nTag-File-Character-Encoding: UTF-8") ∧
    ∃ pm, b.payLoadManifests = [pm] ∧
      fs'.files.lookup (directory ++ ["manifest-" ++ pm.algorithm ++ ".txt"]) =
        some (manifestText directory (Manifest.fileToChecksumMap pm s')) := by
  simp only [bag_in_place, Bag.init, tempfile_mkdtemp] at h
  split at h
  · simp at h
  next q hq =>
    split at h
    · simp at h
    next fs2 hm =>
      split at h
      · simp at h
      next r hr =>
        simp only [Except.ok.injEq, Prod.mk.injEq] at h
        obtain ⟨hb, hfs', hs'⟩ := h
        rw [← hb, ← hfs', ← hs']
        refine ⟨rfl, rfl, rfl, rfl, rfl, rfl, ?_, r.1, by simp, ?_⟩
        · simp only [_write_payload_manifest, _create_bagit_file, Bool.false_eq_true,
            if_false, bagitText, Version.str]
          rw [lookup_setFile_ne (Ne.symm (manifest_key_ne_bagit directory r.1.algorithm)),
            lookup_setFile_self]
        · simp only [_write_payload_manifest, Bool.false_eq_true, if_false]
          rw [lookup_setFile_self]

/-- C10 witness: the theorem applied to the concrete successful run. -/
theorem C10_witness :
    resPlain.1.rootDir = ["d"] ∧ resPlain.1.version = ⟨0, 97⟩ ∧
    resPlain.1.fileEncoding = "utf-8" ∧ resPlain.1.itemsToFetch = [] ∧
    resPlain.1.tagManifests = [] ∧ resPlain.1.metadata = [] ∧
    resPlain.2.1.files.lookup (["d"] ++ ["bagit.txt"]) =
      some ("BagIt-Version: " ++ Version.str ⟨0, 97⟩ ++ "\nTag-File-Character-Encoding: UTF-8") ∧
    ∃ pm, resPlain.1.payLoadManifests = [pm] ∧
      resPlain.2.1.files.lookup (["d"] ++ ["manifest-" ++ pm.algorithm ++ ".txt"]) =
        some (manifestText ["d"] (Manifest.fileToChecksumMap pm resPlain.2.2)) :=
  C10_bag_descriptor fsPlainDir ⟨[]⟩ ["d"] "md5" true
    resPlain.1 resPlain.2.1 resPlain.2.2 rfl

end BagitPy
